import Mathlib

/-!
Shallow embedding of `src/server.js`: an Express server that relays chat
questions (optionally with an image URL) to an upstream streamed
chat-completion API and forwards each text fragment to the client as a
Server-Sent Events (SSE) stream.  The request-scoped behaviour of the
POST /ask route is modelled as a pure function from the inbound request
body and the outcome of the upstream call to an ordered trace of response
actions; process startup and the global error middleware are modelled
separately.
-/

/-- JavaScript truthiness of an optional string field: `undefined` and the
empty string are falsy, every other string is truthy. -/
def truthy : Option String → Bool
  | none => false
  | some s => s != ""

/-- Body of a POST /ask request: `const { question, imageUrl } = req.body`
(line 49).  A missing field is `none`. -/
structure ReqBody where
  question : Option String
  imageUrl : Option String
  deriving DecidableEq, Repr

/-- One part of a multimodal message content array (lines 62-65). -/
inductive ContentPart where
  | text (text : String)
  | image_url (url : String)
  deriving DecidableEq, Repr

/-- Message content: either a plain string or an array of parts. -/
inductive MsgContent where
  | str (s : String)
  | parts (ps : List ContentPart)
  deriving DecidableEq, Repr

/-- A role-tagged chat message sent upstream. -/
structure ChatMessage where
  role : String
  content : MsgContent
  deriving DecidableEq, Repr

/-- The system instruction of the text-only shape (line 69). -/
def systemPrompt : String :=
  "You are a helpful legal assistant. Provide clear, concise, and accurate information. Your answers should be in the same language as the user\x27s question (English, French, or Arabic)."

/-- The default text part used when `question` is falsy (line 63). -/
def defaultImagePrompt : String := "What is in this image?"

/-- The fixed model identifier (line 55). -/
def model : String := "google/gemini-2.0-flash-exp:free"

/-- Message construction of lines 59-72.  In the image branch the text part
is `question || "What is in this image?"`; in the text-only branch the user
content is the raw `question` value (by the route's validation it is always
a non-empty string there, so modelling the unreachable `undefined` case as
`""` via `getD` loses nothing). -/
def buildMessages (question imageUrl : Option String) : List ChatMessage :=
  if truthy imageUrl then
    [⟨"user", .parts [.text (if truthy question then question.getD "" else defaultImagePrompt),
                      .image_url (imageUrl.getD "")]⟩]
  else
    [⟨"system", .str systemPrompt⟩, ⟨"user", .str (question.getD "")⟩]

/-- The `delta` object of an upstream chunk's first choice. -/
structure Delta where
  content : Option String
  deriving DecidableEq, Repr

/-- One element of an upstream chunk's `choices` array. -/
structure Choice where
  delta : Option Delta
  deriving DecidableEq, Repr

/-- One chunk yielded by the upstream stream. -/
structure Chunk where
  choices : List Choice
  deriving DecidableEq, Repr

/-- The expression `chunk.choices[0]?.delta?.content` (line 88), with JS
optional chaining collapsing every missing step to `undefined`. -/
def chunkContent (c : Chunk) : Option String :=
  match c.choices.head? with
  | none => none
  | some ch =>
    match ch.delta with
    | none => none
    | some d => d.content

/-- A chunk whose first choice's delta carries content `s`. -/
def mkChunk (s : String) : Chunk := ⟨[⟨some ⟨some s⟩⟩]⟩

/-- Outcome of the upstream call: either `openrouter.chat.completions.stream`
throws before yielding anything (`connectError`), or it yields a list of
chunks and then either ends normally or throws mid-stream. -/
inductive UpstreamResult where
  | connectError
  | streamed (chunks : List Chunk) (midStreamError : Bool)
  deriving DecidableEq, Repr

/-- One observable response action of the /ask route, in emission order.
`writeChunk s` models `res.write` of the SSE-framed payload with JSON body
containing the chunk `s` (line 91); `writeDone` models the literal done
marker write of line 96; `endRes` models `res.end()`. -/
inductive ResAction where
  | jsonStatus (status : Nat) (error : String)
  | setHeader (name value : String)
  | openStream (model : String) (messages : List ChatMessage)
  | writeChunk (content : String)
  | writeDone
  | endRes
  deriving DecidableEq, Repr

/-- The three SSE headers set at lines 75-77, in order. -/
def sseHeaders : List ResAction :=
  [.setHeader "Content-Type" "text/event-stream",
   .setHeader "Cache-Control" "no-cache",
   .setHeader "Connection" "keep-alive"]

/-- The `for await` loop of lines 87-93: each chunk's content is forwarded
as one write exactly when it is truthy. -/
def relayChunks : List Chunk → List ResAction
  | [] => []
  | c :: rest =>
    match chunkContent c with
    | some s => if s != "" then ResAction.writeChunk s :: relayChunks rest else relayChunks rest
    | none => relayChunks rest

/-- The POST /ask route (lines 47-105) as a trace of response actions.  The
catch block (lines 99-104) only calls `res.end()`, which the trace records
as a bare `endRes` after whatever had already been emitted. -/
def askRoute (req : ReqBody) (up : UpstreamResult) : List ResAction :=
  if !truthy req.question && !truthy req.imageUrl then
    [.jsonStatus 400 "Question or Image URL is required."]
  else
    sseHeaders ++ ResAction.openStream model (buildMessages req.question req.imageUrl) ::
      (match up with
       | .connectError => [ResAction.endRes]
       | .streamed chunks midErr =>
         relayChunks chunks ++
           (if midErr then [ResAction.endRes] else [ResAction.writeDone, ResAction.endRes]))

/-- Does a trace contain a structured JSON error response? -/
def isStructuredError : ResAction → Bool
  | .jsonStatus _ _ => true
  | _ => false

/-- True when some action of the trace is a structured JSON error response. -/
def hasStructuredError (tr : List ResAction) : Bool := tr.any isStructuredError

/-- Is this action the header switching the response into event-stream mode? -/
def isSSEContentType : ResAction → Bool
  | .setHeader n v => n == "Content-Type" && v == "text/event-stream"
  | _ => false

/-- True when the trace has switched the response into event-stream mode. -/
def streamStarted (tr : List ResAction) : Bool := tr.any isSSEContentType

/-- Is this action the opening of the upstream streamed call? -/
def isOpenStream : ResAction → Bool
  | .openStream _ _ => true
  | _ => false

/-- True when the trace contains an upstream call. -/
def madeUpstreamCall (tr : List ResAction) : Bool := tr.any isOpenStream

/-- Body-only output actions: stream writes and the final end, with no
header changes and no JSON status response. -/
def isBodyWrite : ResAction → Bool
  | .writeChunk _ => true
  | .writeDone => true
  | .endRes => true
  | _ => false

/-- Process environment as read by `server.js`. -/
structure Env where
  OPENROUTER_API_KEY : Option String
  PORT : Option String
  deriving DecidableEq, Repr

/-- The value bound to `port`: either the environment string or the numeric
default. -/
inductive PortVal where
  | str (s : String)
  | num (n : Nat)
  deriving DecidableEq, Repr

/-- Line 17: `const port = process.env.PORT || 3000` with JS truthiness. -/
def port (env : Env) : PortVal :=
  match env.PORT with
  | some s => if s != "" then .str s else .num 3000
  | none => .num 3000

/-- The fatal startup message of line 32. -/
def fatalMsg : String :=
  "FATAL ERROR: OPENROUTER_API_KEY environment variable is not set."

/-- Outcome of process startup. -/
inductive StartupResult where
  | fatal (msg : String)
  | listening (p : PortVal)
  deriving DecidableEq, Repr

/-- The pre-startup check of lines 31-33 followed by `app.listen(port)` of
line 116: the module throws before listening when the key is falsy. -/
def startServer (env : Env) : StartupResult :=
  if !truthy env.OPENROUTER_API_KEY then .fatal fatalMsg
  else .listening (port env)

/-- Response produced by the global error middleware. -/
structure ErrorResponse where
  status : Nat
  error : String
  deriving DecidableEq, Repr

/-- The global error-handling middleware of lines 110-113.  The error value
is only logged; the response does not depend on it. -/
def errorMiddleware (_err : String) : ErrorResponse :=
  ⟨500, "An internal server error occurred."⟩

/-- Outcome of running a route handler on a request. -/
inductive HandlerOutcome where
  | ok (tr : List ResAction)
  | threw (err : String)
  deriving DecidableEq, Repr

/-- Models Express routing semantics: a synchronous error thrown by a route
handler and not caught inside it is passed to the error-handling
middleware; a normal completion returns the handler's own trace. -/
def dispatch : HandlerOutcome → List ResAction ⊕ ErrorResponse
  | .ok tr => .inl tr
  | .threw e => .inr (errorMiddleware e)

/- ------------------------------------------------------------------ -/
/- Helper lemmas -/

/-- Every action emitted by the stream loop is a `writeChunk` of a truthy
content value, in arrival order. -/
theorem relayChunks_eq_filter (cs : List Chunk) :
    relayChunks cs
      = ((cs.filterMap chunkContent).filter (fun s => s != "")).map ResAction.writeChunk := by
  induction cs with
  | nil => rfl
  | cons c rest ih =>
    simp only [relayChunks, List.filterMap_cons]
    cases hc : chunkContent c with
    | none => simpa using ih
    | some s =>
      by_cases hs : s = ""
      · subst hs; simp [ih]
      · simp [List.filter_cons, hs, ih]

/-- A valid request's trace always contains the upstream call with the
constructed message sequence. -/
theorem openStream_mem (req : ReqBody) (up : UpstreamResult)
    (hv : (!truthy req.question && !truthy req.imageUrl) = false) :
    ResAction.openStream model (buildMessages req.question req.imageUrl) ∈ askRoute req up := by
  cases up <;> simp [askRoute, hv, sseHeaders]

/- ------------------------------------------------------------------ -/
/- Claim theorems -/

/-- C3: when both `question` and `imageUrl` are empty or absent, the route
responds 400 with the fixed error body and performs no other action — in
particular no upstream call and no streaming headers. -/
theorem missing_input_rejected (req : ReqBody) (up : UpstreamResult)
    (hq : truthy req.question = false) (hi : truthy req.imageUrl = false) :
    askRoute req up = [ResAction.jsonStatus 400 "Question or Image URL is required."]
    ∧ madeUpstreamCall (askRoute req up) = false
    ∧ streamStarted (askRoute req up) = false := by
  have h : askRoute req up = [ResAction.jsonStatus 400 "Question or Image URL is required."] := by
    simp [askRoute, hq, hi]
  exact ⟨h, by rw [h]; rfl, by rw [h]; rfl⟩

/-- Witness for C3 at the concrete request with `question` absent and
`imageUrl` the empty string. -/
theorem missing_input_rejected_witness :
    askRoute ⟨none, some ""⟩ .connectError
        = [ResAction.jsonStatus 400 "Question or Image URL is required."]
    ∧ madeUpstreamCall (askRoute ⟨none, some ""⟩ .connectError) = false
    ∧ streamStarted (askRoute ⟨none, some ""⟩ .connectError) = false :=
  missing_input_rejected ⟨none, some ""⟩ .connectError (by decide) (by decide)

/-- C4: a request with a non-empty `question` and no `imageUrl` produces
exactly a system instruction message followed by one user message whose
content is `question`, and that exact sequence is what the upstream call
receives. -/
theorem text_only_messages (s : String) (up : UpstreamResult) (hs : s ≠ "") :
    buildMessages (some s) none
        = [⟨"system", MsgContent.str systemPrompt⟩, ⟨"user", MsgContent.str s⟩]
    ∧ ResAction.openStream model
        [⟨"system", MsgContent.str systemPrompt⟩, ⟨"user", MsgContent.str s⟩]
        ∈ askRoute ⟨some s, none⟩ up := by
  have hb : buildMessages (some s) none
      = [⟨"system", MsgContent.str systemPrompt⟩, ⟨"user", MsgContent.str s⟩] := by
    simp [buildMessages, truthy]
  refine ⟨hb, ?_⟩
  have := openStream_mem ⟨some s, none⟩ up (by simp [truthy, hs])
  rwa [hb] at this

/-- Witness for C4 at a concrete non-empty question. -/
theorem text_only_messages_witness :
    buildMessages (some "What is a contract?") none
        = [⟨"system", MsgContent.str systemPrompt⟩,
           ⟨"user", MsgContent.str "What is a contract?"⟩]
    ∧ ResAction.openStream model
        [⟨"system", MsgContent.str systemPrompt⟩,
         ⟨"user", MsgContent.str "What is a contract?"⟩]
        ∈ askRoute ⟨some "What is a contract?", none⟩ .connectError :=
  text_only_messages "What is a contract?" .connectError (by decide)

/-- C1 counterexample: when the upstream stream emits the fragments
["", "b", "c"] and completes, no downstream event carries the first
fragment "" — the `if (content)` guard drops empty fragments, so the claim
fails as stated for arbitrary fragments. -/
theorem fragment_order_empty_counterexample :
    ResAction.writeChunk ""
        ∉ askRoute ⟨some "q", none⟩ (.streamed [mkChunk "", mkChunk "b", mkChunk "c"] false)
    ∧ askRoute ⟨some "q", none⟩ (.streamed [mkChunk "", mkChunk "b", mkChunk "c"] false)
        = sseHeaders ++ [ResAction.openStream model (buildMessages (some "q") none),
            ResAction.writeChunk "b", ResAction.writeChunk "c",
            ResAction.writeDone, ResAction.endRes] := by
  constructor
  · decide
  · rfl

/-- C1 amended: for every valid request and every upstream stream emitting
three non-empty fragments a, b, c in that order and then completing, the
downstream trace is exactly the SSE headers, the upstream call, one event
carrying a, one carrying b, one carrying c, the terminal done marker, and
the close — nothing dropped, duplicated, or reordered. -/
theorem fragment_order_relay (req : ReqBody) (a b c : String)
    (hv : (!truthy req.question && !truthy req.imageUrl) = false)
    (ha : a ≠ "") (hb : b ≠ "") (hc : c ≠ "") :
    askRoute req (.streamed [mkChunk a, mkChunk b, mkChunk c] false)
      = sseHeaders ++ [ResAction.openStream model (buildMessages req.question req.imageUrl),
          ResAction.writeChunk a, ResAction.writeChunk b, ResAction.writeChunk c,
          ResAction.writeDone, ResAction.endRes] := by
  simp [askRoute, hv, relayChunks, chunkContent, mkChunk, ha, hb, hc]

/-- Witness for C1 amended at a concrete request and concrete non-empty
fragments. -/
theorem fragment_order_relay_witness :
    askRoute ⟨some "q", none⟩ (.streamed [mkChunk "x", mkChunk "y", mkChunk "z"] false)
      = sseHeaders ++ [ResAction.openStream model (buildMessages (some "q") none),
          ResAction.writeChunk "x", ResAction.writeChunk "y", ResAction.writeChunk "z",
          ResAction.writeDone, ResAction.endRes] :=
  fragment_order_relay ⟨some "q", none⟩ "x" "y" "z" (by decide) (by decide) (by decide)
    (by decide)

/-- C2 counterexample: when the upstream call throws before the first byte,
the trace of the route contains no structured JSON error response, and the
response has already been switched into event-stream mode — contradicting
the claimed structured 5xx error with no stream started. -/
theorem pre_stream_error_counterexample :
    hasStructuredError (askRoute ⟨some "q", none⟩ .connectError) = false
    ∧ streamStarted (askRoute ⟨some "q", none⟩ .connectError) = true := by
  decide

/-- C2 amended: when the upstream call fails before the first byte, the SSE
headers have already been set; the catch block simply ends the response, so
the client sees an event stream that closes with no events and no
structured error payload. -/
theorem pre_stream_error_close (req : ReqBody)
    (hv : (!truthy req.question && !truthy req.imageUrl) = false) :
    askRoute req .connectError
      = sseHeaders ++ [ResAction.openStream model (buildMessages req.question req.imageUrl),
          ResAction.endRes] := by
  simp [askRoute, hv]

/-- Witness for C2 amended at a concrete valid request. -/
theorem pre_stream_error_close_witness :
    askRoute ⟨some "q", none⟩ .connectError
      = sseHeaders ++ [ResAction.openStream model (buildMessages (some "q") none),
          ResAction.endRes] :=
  pre_stream_error_close ⟨some "q", none⟩ (by decide)

/-- C5 counterexample: for the request with question "q" and imageUrl
present but equal to "", the constructed message sequence is the text-only
shape (system message plus plain user message), not the claimed single user
message with a text part and an image part — `if (imageUrl)` treats the
empty string as absent. -/
theorem image_present_counterexample :
    buildMessages (some "q") (some "")
      = [⟨"system", MsgContent.str systemPrompt⟩, ⟨"user", MsgContent.str "q"⟩] := rfl

/-- C5 amended: for every request whose imageUrl is a non-empty string, the
message sequence is exactly one user message with two parts — a text part
equal to question when question is non-empty, else the fixed default
prompt — and an image part referencing imageUrl. -/
theorem image_messages (q u : String) (hu : u ≠ "") :
    buildMessages (some q) (some u)
      = [⟨"user", MsgContent.parts
            [ContentPart.text (if q = "" then defaultImagePrompt else q),
             ContentPart.image_url u]⟩]
    ∧ buildMessages none (some u)
      = [⟨"user", MsgContent.parts
            [ContentPart.text defaultImagePrompt, ContentPart.image_url u]⟩] := by
  constructor
  · by_cases hq : q = "" <;> simp [buildMessages, truthy, hu, hq]
  · simp [buildMessages, truthy, hu]

/-- Witness for C5 amended at concrete question and image URL. -/
theorem image_messages_witness :
    buildMessages (some "q") (some "http://img")
      = [⟨"user", MsgContent.parts
            [ContentPart.text (if "q" = "" then defaultImagePrompt else "q"),
             ContentPart.image_url "http://img"]⟩]
    ∧ buildMessages none (some "http://img")
      = [⟨"user", MsgContent.parts
            [ContentPart.text defaultImagePrompt, ContentPart.image_url "http://img"]⟩] :=
  image_messages "q" "http://img" (by decide)

/-- C6: when the upstream stream throws after yielding its chunks, the
trace is the headers, the upstream call, the forwarded fragments, and a
bare close — with no done marker and no structured error payload; the
forwarded fragments are all the client observes. -/
theorem mid_stream_error_close (req : ReqBody) (chunks : List Chunk)
    (hv : (!truthy req.question && !truthy req.imageUrl) = false) :
    askRoute req (.streamed chunks true)
      = sseHeaders ++ ResAction.openStream model (buildMessages req.question req.imageUrl)
          :: (relayChunks chunks ++ [ResAction.endRes])
    ∧ ResAction.writeDone ∉ askRoute req (.streamed chunks true)
    ∧ hasStructuredError (askRoute req (.streamed chunks true)) = false := by
  have h : askRoute req (.streamed chunks true)
      = sseHeaders ++ ResAction.openStream model (buildMessages req.question req.imageUrl)
          :: (relayChunks chunks ++ [ResAction.endRes]) := by
    simp [askRoute, hv]
  refine ⟨h, ?_, ?_⟩
  · rw [h, relayChunks_eq_filter]
    simp [sseHeaders, List.mem_map]
  · rw [h, relayChunks_eq_filter]
    simp [hasStructuredError, sseHeaders, isStructuredError, List.any_map, Function.comp]
    intro x s c hmem heq hne hx
    subst hx
    rfl

/-- Witness for C6 at a concrete request and a two-fragment stream that
then drops. -/
theorem mid_stream_error_close_witness :
    askRoute ⟨some "q", none⟩ (.streamed [mkChunk "x", mkChunk "y"] true)
      = sseHeaders ++ ResAction.openStream model (buildMessages (some "q") none)
          :: (relayChunks [mkChunk "x", mkChunk "y"] ++ [ResAction.endRes])
    ∧ ResAction.writeDone ∉ askRoute ⟨some "q", none⟩ (.streamed [mkChunk "x", mkChunk "y"] true)
    ∧ hasStructuredError (askRoute ⟨some "q", none⟩ (.streamed [mkChunk "x", mkChunk "y"] true))
        = false :=
  mid_stream_error_close ⟨some "q", none⟩ [mkChunk "x", mkChunk "y"] (by decide)

/-- C7 counterexample: with OPENROUTER_API_KEY present but equal to the
empty string, the process refuses to start — contradicting the claim that
any present credential lets the server listen (the check is on JS
truthiness, not presence). -/
theorem startup_empty_key_counterexample :
    (Env.mk (some "") none).OPENROUTER_API_KEY ≠ none
    ∧ startServer ⟨some "", none⟩ = .fatal fatalMsg := by
  constructor
  · decide
  · rfl

/-- C7 amended: the process refuses to start exactly when the credential is
absent or the empty string; with a non-empty credential it listens, on port
3000 when PORT is unset or empty and on the PORT string otherwise. -/
theorem startup_check (key p : Option String) :
    (startServer ⟨key, p⟩ = .fatal fatalMsg ↔ key = none ∨ key = some "")
    ∧ (truthy key = true → p = none ∨ p = some "" →
        startServer ⟨key, p⟩ = .listening (.num 3000))
    ∧ (∀ s, truthy key = true → p = some s → s ≠ "" →
        startServer ⟨key, p⟩ = .listening (.str s)) := by
  refine ⟨?_, ?_, ?_⟩
  · cases key with
    | none => simp [startServer, truthy]
    | some s =>
      by_cases hs : s = ""
      · subst hs; simp [startServer, truthy]
      · simp [startServer, truthy, hs]
  · intro hk hp
    rcases hp with rfl | rfl <;> simp [startServer, hk, port]
  · intro s hk hp hs
    subst hp
    simp [startServer, hk, port, hs]

/-- Witness for C7 amended: a concrete non-empty key listens on 3000 both
with PORT unset and with PORT empty, and an absent key is fatal. -/
theorem startup_check_witness :
    startServer ⟨some "k", none⟩ = .listening (.num 3000)
    ∧ startServer ⟨some "k", some ""⟩ = .listening (.num 3000)
    ∧ startServer ⟨none, none⟩ = .fatal fatalMsg :=
  ⟨(startup_check (some "k") none).2.1 (by decide) (Or.inl rfl),
   (startup_check (some "k") (some "")).2.1 (by decide) (Or.inr rfl),
   (startup_check (none) none).1.mpr (Or.inl rfl)⟩

/-- C8: a synchronous error thrown by a route handler and left uncaught is
turned by the catch-all middleware into a 500 response whose JSON body has
a single string error field. -/
theorem sync_error_middleware (e : String) :
    dispatch (.threw e) = .inr ⟨500, "An internal server error occurred."⟩ := rfl

/-- C9: a chunk whose first choice's delta content is absent or empty
contributes no downstream event, and the events the loop emits are exactly
one write per truthy content value, in arrival order. -/
theorem nonempty_content_forwarded (c : Chunk) (cs : List Chunk) :
    (chunkContent c = none → relayChunks (c :: cs) = relayChunks cs)
    ∧ (chunkContent c = some "" → relayChunks (c :: cs) = relayChunks cs)
    ∧ relayChunks cs
        = ((cs.filterMap chunkContent).filter (fun s => s != "")).map ResAction.writeChunk := by
  refine ⟨?_, ?_, relayChunks_eq_filter cs⟩
  · intro h
    simp [relayChunks, h]
  · intro h
    simp [relayChunks, h]

/-- Witness for C9: a chunk with no choices and a chunk with empty content
both vanish from the event trace. -/
theorem nonempty_content_forwarded_witness :
    relayChunks [Chunk.mk [], mkChunk "x"] = relayChunks [mkChunk "x"]
    ∧ relayChunks [mkChunk "", mkChunk "x"] = relayChunks [mkChunk "x"] :=
  ⟨(nonempty_content_forwarded ⟨[]⟩ [mkChunk "x"]).1 rfl,
   (nonempty_content_forwarded (mkChunk "") [mkChunk "x"]).2.1 rfl⟩

/-- C10: once validation passes, the first four actions of the trace are
the three SSE headers followed by the upstream call — event-stream mode is
entered before the upstream call is opened — and every later action is a
body write: no further header and no JSON status response, whatever the
upstream outcome. -/
theorem sse_headers_before_upstream (req : ReqBody) (up : UpstreamResult)
    (hv : (!truthy req.question && !truthy req.imageUrl) = false) :
    (askRoute req up).take 4
        = sseHeaders ++ [ResAction.openStream model (buildMessages req.question req.imageUrl)]
    ∧ ((askRoute req up).drop 4).all isBodyWrite = true := by
  cases up with
  | connectError =>
    constructor
    · simp [askRoute, hv, sseHeaders]
    · simp [askRoute, hv, sseHeaders, isBodyWrite]
  | streamed chunks midErr =>
    constructor
    · simp [askRoute, hv, sseHeaders]
    · rw [show askRoute req (.streamed chunks midErr)
          = sseHeaders ++ ResAction.openStream model (buildMessages req.question req.imageUrl)
              :: (relayChunks chunks
                  ++ (if midErr then [ResAction.endRes]
                      else [ResAction.writeDone, ResAction.endRes])) from by simp [askRoute, hv]]
      rw [relayChunks_eq_filter]
      cases midErr with
      | false =>
        simp [sseHeaders, List.all_append, List.all_map, Function.comp, isBodyWrite]
        intro x s c hmem heq hne hx
        subst hx
        rfl
      | true =>
        simp [sseHeaders, List.all_append, List.all_map, Function.comp, isBodyWrite]
        intro x s c hmem heq hne hx
        subst hx
        rfl

/-- Witness for C10 at a concrete valid request with a failing upstream
call. -/
theorem sse_headers_before_upstream_witness :
    (askRoute ⟨some "q", none⟩ .connectError).take 4
        = sseHeaders ++ [ResAction.openStream model (buildMessages (some "q") none)]
    ∧ ((askRoute ⟨some "q", none⟩ .connectError).drop 4).all isBodyWrite = true :=
  sse_headers_before_upstream ⟨some "q", none⟩ .connectError (by decide)
